import Mathlib

/-!
Shallow embedding of the financial core of the TruckerApp repository
(`src/app.py`, `src/exchange_rate_service.py`, `src/db_handler.py`):
the currency Conversion Engine (`convert_to_primary`), the Rate
Provider cache (`ExchangeRateService.get_live_rate`), the trip
lifecycle (completion routes and the expense-permission check), the
profit/expense aggregations of the dashboard, trip, and unit routes,
and the primary-currency setting.

Python dynamic values that flow into `float(...)` are modelled by
`PVal`: a numeric value (modelled as a rational — the code's float
arithmetic is read as exact arithmetic, which is the claims' reading
"modulo floating tolerance"), Python `None`, or a non-numeric value
on which `float` raises.  Timestamps are integers (seconds since an
arbitrary epoch); `timedelta(hours=24)` is 86400 seconds and the
Rate Provider's one-hour `CACHE_DURATION` is 3600 seconds.
-/

namespace TruckerApp

/-- A Python value in an `amount` / `exchange_rate` position:
a number, `None`, or a value `float()` rejects.  (For an amount the
truthiness of a rejected value is irrelevant: a truthy one raises in
`float` and is caught, a falsy one — the empty string — is replaced
by `0.0`; both yield amount `0.0`.) -/
inductive PVal where
  | num (q : ℚ)
  | pnone
  | nonnum
  deriving DecidableEq

/-- Embedding of `float(amount or 0.0)` wrapped in `try/except` with fallback `0.0`
(app.py lines 272-275): a number evaluates to itself (`0 or 0.0` is
`0.0`), `None` and non-numeric values give `0.0`. -/
def toAmt : PVal → ℚ
  | .num q => q
  | .pnone => 0
  | .nonnum => 0

/-- Embedding of `float(exchange_rate)` (app.py line 284): a number converts,
`None` and non-numeric values raise (result `none`). -/
def toRate : PVal → Option ℚ
  | .num q => some q
  | .pnone => none
  | .nonnum => none

/-- Python's `str.upper()` on the (ASCII) currency codes concerned,
written over the character list so that it evaluates in the kernel. -/
def pyUpper (s : String) : String := ⟨s.data.map Char.toUpper⟩

/-- Embedding of `(c or "USD").upper()` on an optional currency string
(app.py lines 277-278): a missing or empty (falsy) string falls back
to `"USD"`. -/
def normCurr (c : Option String) : String :=
  match c with
  | some s => if s = "" then "USD" else pyUpper s
  | none => "USD"

/-- Embedding of `convert_to_primary(amount, from_currency,
exchange_rate, primary_currency)` (app.py lines 270-295). -/
def convert_to_primary (amount : PVal) (from_currency : Option String)
    (exchange_rate : PVal) (primary_currency : Option String) : ℚ :=
  let amt := toAmt amount
  let from_curr := normCurr from_currency
  let primary_curr := normCurr primary_currency
  if from_curr = primary_curr then amt
  else
    match toRate exchange_rate with
    | none => 0
    | some er =>
      if er = 0 then 0
      else if primary_curr = "USD" ∧ from_curr = "CAD" then amt / er
      else if primary_curr = "CAD" ∧ from_curr = "USD" then amt * er
      else amt

/-- An expense line item as the aggregation code reads it:
`e.get("amount", 0)` and `e.get("currency")` (or
`e.get("currency", "USD")` in `owner_dashboard`). -/
structure Expense where
  amount : PVal
  currency : Option String
  deriving DecidableEq

/-- A trip document, restricted to the fields the financial core
reads: `status`, `payment_usd`, `expenses`, `completed_at`,
`exchange_rate_at`, `driver_id`. -/
structure Trip where
  status : String
  payment_usd : PVal
  expenses : List Expense
  completed_at : Option ℤ
  exchange_rate_at : Option ℚ
  driver_id : Option String
  deriving DecidableEq

/-- A unit (vehicle) document, restricted to its expense list. -/
structure FleetUnit where
  expenses : List Expense
  deriving DecidableEq

/-- Embedding of `str(trip.get("driver_id"))` (app.py lines 542, 599, 643):
Python renders a missing reference as the string `"None"`. -/
def tripDriverStr (t : Trip) : String :=
  match t.driver_id with
  | some d => d
  | none => "None"

/-- The expense-permission check of `add_expense` (app.py lines
596-601); `trip_detail` computes the identical predicate as
`can_add_expense` (lines 539-548).  `role` and `userId` are the
session's `user_role` / `user_id`. -/
def canAddExpense (t : Trip) (role : String) (userId : String) (now : ℤ) : Bool :=
  if role = "owner" then true
  else if role = "driver" ∧ tripDriverStr t = userId then
    if t.status ≠ "completed" then true
    else
      match t.completed_at with
      | some c => decide (now - c ≤ 86400)
      | none => false
  else false

/-- The update applied by `mark_complete` (app.py lines 621-635):
unconditionally `$set`s `status`, `completed_at` and
`exchange_rate_at` on the trip, with no check of the current status. -/
def mark_complete (t : Trip) (now : ℤ) (live_rate : ℚ) : Trip :=
  { t with status := "completed", completed_at := some now,
           exchange_rate_at := some live_rate }

/-- Embedding of `driver_mark_complete` (app.py lines 638-658): applies the same
unconditional update when the trip is assigned to the acting driver,
and leaves the trip unchanged (redirecting with an error) otherwise. -/
def driver_mark_complete (t : Trip) (userId : String) (now : ℤ) (live_rate : ℚ) : Trip :=
  if tripDriverStr t = userId then mark_complete t now live_rate else t

/-- Sum of a trip's expenses converted at one rate, as in the loops of
`all_trips` (line 468) and `trip_detail` (lines 556-566): the
currency is read with `e.get("currency")` (default `None`). -/
def tripExpensesSum (expenses : List Expense) (rate : PVal)
    (primary : Option String) : ℚ :=
  (expenses.map (fun e => convert_to_primary e.amount e.currency rate primary)).sum

/-- Expense sum with the currency read as `e.get("currency", "USD")`,
as in `owner_dashboard` (lines 402, 406). -/
def expensesSumCurrD (expenses : List Expense) (rate : PVal)
    (primary : Option String) : ℚ :=
  (expenses.map (fun e =>
    convert_to_primary e.amount (some (e.currency.getD "USD")) rate primary)).sum

/-- Rate selection of `all_trips` (app.py line 466):
`t.get("exchange_rate_at") if t.get("status") == "completed" else
exchange_rate` — for a completed trip the stored snapshot is used
as-is (it may be `None` if absent). -/
def rateFor_all_trips (t : Trip) (exchange_rate : ℚ) : PVal :=
  if t.status = "completed" then
    match t.exchange_rate_at with
    | some r => .num r
    | none => .pnone
  else .num exchange_rate

/-- One row of the `all_trips` listing (app.py lines 465-481):
`(payment_primary, expenses_primary, profit_primary)`. -/
def all_trips_row (t : Trip) (exchange_rate : ℚ)
    (primary : Option String) : ℚ × ℚ × ℚ :=
  let rate := rateFor_all_trips t exchange_rate
  let payment_primary := convert_to_primary t.payment_usd (some "USD") rate primary
  let expenses_primary := tripExpensesSum t.expenses rate primary
  (payment_primary, expenses_primary, payment_primary - expenses_primary)

/-- Rate selection of `trip_detail` (app.py line 552):
`trip.get("exchange_rate_at") or exchange_rate` — a missing or zero
(falsy) snapshot falls back to the live settings rate. -/
def rateFor_trip_detail (t : Trip) (exchange_rate : ℚ) : ℚ :=
  match t.exchange_rate_at with
  | some r => if r = 0 then exchange_rate else r
  | none => exchange_rate

/-- The valuation triple of `trip_detail` (app.py lines 550-567):
`(payment_primary, total_expenses_primary, profit_primary)`. -/
def trip_detail_row (t : Trip) (exchange_rate : ℚ)
    (primary : Option String) : ℚ × ℚ × ℚ :=
  let rate_for_trip := rateFor_trip_detail t exchange_rate
  let payment_primary :=
    convert_to_primary t.payment_usd (some "USD") (.num rate_for_trip) primary
  let total_expenses_primary := tripExpensesSum t.expenses (.num rate_for_trip) primary
  (payment_primary, total_expenses_primary, payment_primary - total_expenses_primary)

/-- Valuation of a trip at an explicitly given rate — the spec-side
notion "all reported values computed with this one rate", used to
compare the route computations against the locked rate. -/
def valuationAtRate (t : Trip) (r : ℚ) (primary : Option String) : ℚ × ℚ × ℚ :=
  let payment := convert_to_primary t.payment_usd (some "USD") (.num r) primary
  let expenses := tripExpensesSum t.expenses (.num r) primary
  (payment, expenses, payment - expenses)

/-- Rate selection of `owner_dashboard` (app.py line 396):
`t.get("exchange_rate_at") if t.get("status") == "completed" and
t.get("exchange_rate_at") else current_exchange_rate` — the snapshot
is used only when the trip is completed and the snapshot is truthy. -/
def rateFor_owner_dashboard (t : Trip) (current : ℚ) : ℚ :=
  match t.exchange_rate_at with
  | some r => if t.status = "completed" ∧ r ≠ 0 then r else current
  | none => current

/-- Total expenses accumulated by `owner_dashboard` (app.py lines
395-406): the trip loop converts each trip's expenses at that trip's
selected rate, then the unit loop converts every unit expense at the
current settings rate. -/
def owner_dashboard_total_expenses (trips : List Trip) (units_list : List FleetUnit)
    (current : ℚ) (primary : Option String) : ℚ :=
  (trips.map (fun t =>
      expensesSumCurrD t.expenses (.num (rateFor_owner_dashboard t current)) primary)).sum
  + (units_list.map (fun u =>
      expensesSumCurrD u.expenses (.num current) primary)).sum

/-- Per-unit expense total of the `units` listing (app.py lines
766-770) and of `unit_detail` (line 808): every expense is converted
at the current settings exchange rate. -/
def unit_expenses_primary (u : FleetUnit) (exchange_rate : ℚ)
    (primary : Option String) : ℚ :=
  (u.expenses.map (fun ex =>
    convert_to_primary ex.amount ex.currency (.num exchange_rate) primary)).sum

/-- The Rate Provider's in-memory cache
(`ExchangeRateService._cache`): an optional rate and an optional
capture timestamp. -/
structure RateCache where
  rate : Option ℚ
  timestamp : Option ℤ
  deriving DecidableEq

/-- The tail of `get_live_rate` after a failed fetch
(exchange_rate_service.py lines 101-108): a truthy cached rate is
returned even if stale, otherwise the constant default `1.35`. -/
def stale_or_default (c : RateCache) : ℚ :=
  match c.rate with
  | some r => if r = 0 then 27/20 else r
  | none => 27/20

/-- The fetch branch of `get_live_rate` (exchange_rate_service.py
lines 91-108): a truthy fetched rate is cached (value and timestamp)
and returned; a failed fetch (or a falsy fetched value) degrades to
`stale_or_default`.  The `Bool` records that the fetch path ran. -/
def fetch_path (c : RateCache) (now : ℤ) (fetch : Option ℚ) : ℚ × RateCache × Bool :=
  match fetch with
  | some r => if r = 0 then (stale_or_default c, c, true) else (r, ⟨some r, some now⟩, true)
  | none => (stale_or_default c, c, true)

/-- Embedding of `ExchangeRateService.get_live_rate`
(exchange_rate_service.py lines 65-108).  `fetch` is the outcome of
`_fetch_from_api()` (`none` = failure).  Returns the rate, the cache
afterwards, and whether the fetch path was invoked. -/
def get_live_rate (c : RateCache) (now : ℤ) (fetch : Option ℚ) : ℚ × RateCache × Bool :=
  match c.rate, c.timestamp with
  | some r, some ts =>
      if r ≠ 0 ∧ now - ts < 3600 then (r, c, false)
      else fetch_path c now fetch
  | some _, none => fetch_path c now fetch
  | none, _ => fetch_path c now fetch

/-- Embedding of the `set_primary_currency` route (app.py lines
846-856): `request.form.get("primary_currency", "USD")` followed by
the membership check `cur not in ("USD", "CAD")`.  The db layer
(`db_handler.py` lines 136-150) stores the result verbatim. -/
def set_primary_currency (input : Option String) : String :=
  let cur := input.getD "USD"
  if cur = "USD" ∨ cur = "CAD" then cur else "USD"

/-- A completed trip holding a locked rate of `1.40`, completed at
time `0`, assigned to driver `"d1"`. -/
def tripLocked : Trip :=
  { status := "completed", payment_usd := .num 1000,
    expenses := [{ amount := .num 140, currency := some "CAD" }],
    completed_at := some 0, exchange_rate_at := some (7/5),
    driver_id := some "d1" }

/-- The §8 scenario trip: active, `payment_usd = 1000`, one expense
of `135 CAD`. -/
def scenarioTrip : Trip :=
  { status := "active", payment_usd := .num 1000,
    expenses := [{ amount := .num 135, currency := some "CAD" }],
    completed_at := none, exchange_rate_at := none,
    driver_id := some "d1" }

/-- Evaluation of `normCurr` on the concrete currency strings used in
the development. -/
theorem normCurr_evals :
    normCurr (some "CAD") = "CAD" ∧ normCurr (some "USD") = "USD" ∧
    normCurr (some "cad") = "CAD" ∧ normCurr (some "usd") = "USD" ∧
    normCurr (some "EUR") = "EUR" ∧ normCurr (some "GBP") = "GBP" ∧
    normCurr (some "eur") = "EUR" ∧ normCurr none = "USD" := by
  decide

/-- C6 counterexample: the claim asserts pass-through for every rate,
but with an unsupported pair and a zero rate the zero-rate guard fires
first: `convert_to_primary(5, "EUR", 0, "GBP")` is `0`, not `5`. -/
theorem convert_unsupported_zero_rate_cex :
    convert_to_primary (.num 5) (some "EUR") (.num 0) (some "GBP") = 0 ∧
    convert_to_primary (.num 5) (some "EUR") (.num 0) (some "GBP") ≠ 5 := by
  have h : convert_to_primary (.num 5) (some "EUR") (.num 0) (some "GBP") = 0 := by
    simp [convert_to_primary, toRate, toAmt, normCurr_evals.2.2.2.2.1,
      normCurr_evals.2.2.2.2.2.1]
  exact ⟨h, by rw [h]; norm_num⟩

/-- C6 (amended): for every numeric amount, every numeric *nonzero*
rate, and every source/target pair other than the four supported
combinations (after the `or "USD"` / `.upper()` normalisation),
`convert_to_primary` returns the amount unconverted; with a zero,
missing, or non-numeric rate the rate guard yields `0.0` instead. -/
theorem convert_unsupported_pair_passthrough (a r : ℚ) (fc pc : Option String)
    (hne : normCurr fc ≠ normCurr pc)
    (h1 : ¬(normCurr pc = "USD" ∧ normCurr fc = "CAD"))
    (h2 : ¬(normCurr pc = "CAD" ∧ normCurr fc = "USD"))
    (hr : r ≠ 0) :
    convert_to_primary (.num a) fc (.num r) pc = a := by
  simp [convert_to_primary, toRate, toAmt, hne, h1, h2, hr]

/-- Witness for the amended C6: `convert_to_primary(5, "EUR", 2, "GBP") = 5`. -/
theorem convert_unsupported_pair_passthrough_witness :
    convert_to_primary (.num 5) (some "EUR") (.num 2) (some "GBP") = 5 :=
  convert_unsupported_pair_passthrough 5 2 (some "EUR") (some "GBP")
    (by decide) (by decide) (by decide) (by norm_num)

/-- C7: `convert_to_primary` is total and never raises; for differing
(normalised) currencies a zero, missing, or non-numeric rate yields
`0.0` (in particular `convert(x, CAD, 0, USD) = 0.0` for every `x`),
and a non-numeric or missing amount is treated as `0.0`. -/
theorem convert_safe_defaults (x : PVal) (fc pc : Option String) (r : PVal)
    (hne : normCurr fc ≠ normCurr pc)
    (hr : toRate r = none ∨ toRate r = some 0) :
    convert_to_primary x fc r pc = 0 ∧
    (∀ y : PVal, convert_to_primary y (some "CAD") (.num 0) (some "USD") = 0) ∧
    (∀ fc' r' pc',
      convert_to_primary .nonnum fc' r' pc' = convert_to_primary (.num 0) fc' r' pc' ∧
      convert_to_primary .pnone fc' r' pc' = convert_to_primary (.num 0) fc' r' pc') := by
  refine ⟨?_, ?_, ?_⟩
  · rcases hr with h | h <;> simp [convert_to_primary, hne, h]
  · intro y
    simp [convert_to_primary, toRate, normCurr_evals.1, normCurr_evals.2.1]
  · intro fc' r' pc'
    constructor <;> simp [convert_to_primary, toAmt]

/-- Witness for C7: a missing rate across `CAD → USD` gives `0.0`
at amount `42`, and likewise for a non-numeric rate at amount `7`. -/
theorem convert_safe_defaults_witness :
    convert_to_primary (.num 42) (some "CAD") .pnone (some "USD") = 0 ∧
    convert_to_primary (.num 7) (some "CAD") .nonnum (some "USD") = 0 :=
  ⟨(convert_safe_defaults (.num 42) (some "CAD") (some "USD") .pnone
      (by decide) (Or.inl rfl)).1,
   (convert_safe_defaults (.num 7) (some "CAD") (some "USD") .nonnum
      (by decide) (Or.inl rfl)).1⟩

/-- C8: converting `x` from USD to CAD at a nonzero rate `r` and the
result back from CAD to USD at the same rate returns `x` (exactly, in
the rational model of the float arithmetic). -/
theorem convert_round_trip (x r : ℚ) (hr : r ≠ 0) :
    convert_to_primary
      (.num (convert_to_primary (.num x) (some "USD") (.num r) (some "CAD")))
      (some "CAD") (.num r) (some "USD") = x := by
  have h1 : convert_to_primary (.num x) (some "USD") (.num r) (some "CAD") = x * r := by
    simp [convert_to_primary, toRate, toAmt, normCurr_evals.1, normCurr_evals.2.1, hr]
  rw [h1]
  have h2 : convert_to_primary (.num (x * r)) (some "CAD") (.num r) (some "USD")
      = x * r / r := by
    simp [convert_to_primary, toRate, toAmt, normCurr_evals.1, normCurr_evals.2.1, hr]
  rw [h2, mul_div_assoc, div_self hr, mul_one]

/-- Witness for C8: the round trip at `x = 10`, `r = 2`. -/
theorem convert_round_trip_witness :
    convert_to_primary
      (.num (convert_to_primary (.num 10) (some "USD") (.num 2) (some "CAD")))
      (some "CAD") (.num 2) (some "USD") = 10 :=
  convert_round_trip 10 2 (by norm_num)

/-- C10: the set-primary-currency operation stores a value in
`{USD, CAD}`: the input itself when it is exactly `"USD"` or `"CAD"`,
and silently `"USD"` for any other input (lowercase variants,
arbitrary strings, and a missing field). -/
theorem set_primary_currency_spec (i : Option String) :
    (set_primary_currency i = "USD" ∨ set_primary_currency i = "CAD") ∧
    set_primary_currency (some "USD") = "USD" ∧
    set_primary_currency (some "CAD") = "CAD" ∧
    (∀ s, s ≠ "USD" → s ≠ "CAD" → set_primary_currency (some s) = "USD") ∧
    set_primary_currency none = "USD" := by
  refine ⟨?_, by decide, by decide, ?_, by decide⟩
  · unfold set_primary_currency
    by_cases h : i.getD "USD" = "USD" ∨ i.getD "USD" = "CAD"
    · rw [if_pos h]; exact h
    · rw [if_neg h]; left; rfl
  · intro s h1 h2
    simp [set_primary_currency, h1, h2]

/-- Witness for C10: a lowercase variant and an arbitrary string are
both stored as `"USD"`, and the stored value is always in `{USD, CAD}`. -/
theorem set_primary_currency_spec_witness :
    set_primary_currency (some "usd") = "USD" ∧
    (set_primary_currency (some "xyz") = "USD" ∨
     set_primary_currency (some "xyz") = "CAD") :=
  ⟨(set_primary_currency_spec none).2.2.2.1 "usd" (by decide) (by decide),
   (set_primary_currency_spec (some "xyz")).1⟩

/-- C1 counterexample: `mark_complete` checks nothing about the
current status, so an already-completed trip with locked rate `1.40`
is re-completed (not a no-op, not forbidden) and its
`exchange_rate_at` is overwritten with the new live rate `1.50`. -/
theorem mark_complete_overwrites_locked_rate_cex :
    tripLocked.status = "completed" ∧
    tripLocked.exchange_rate_at = some (7/5) ∧
    mark_complete tripLocked 100 (3/2) ≠ tripLocked ∧
    (mark_complete tripLocked 100 (3/2)).exchange_rate_at = some (3/2) ∧
    (3/2 : ℚ) ≠ 7/5 := by
  refine ⟨rfl, rfl, ?_, rfl, by norm_num⟩
  intro h
  have h2 := congrArg Trip.exchange_rate_at h
  simp [mark_complete, tripLocked] at h2
  norm_num at h2

/-- C1 (amended): both completion routes apply the completion update
unconditionally, with no transition guard: `status` becomes
`completed`, `completed_at` becomes the call time, and
`exchange_rate_at` becomes the rate the Rate Provider returned at the
moment of *this* call — so `exchange_rate_at` always equals the rate
of the most recent completion call, and re-completing overwrites it
rather than being a no-op. All other fields are preserved.
`driver_mark_complete` applies the same update when the trip is
assigned to the acting driver and leaves the trip unchanged
otherwise. -/
theorem mark_complete_unconditional (t : Trip) (userId : String) (now : ℤ) (r : ℚ) :
    (mark_complete t now r).status = "completed" ∧
    (mark_complete t now r).completed_at = some now ∧
    (mark_complete t now r).exchange_rate_at = some r ∧
    (mark_complete t now r).payment_usd = t.payment_usd ∧
    (mark_complete t now r).expenses = t.expenses ∧
    (mark_complete t now r).driver_id = t.driver_id ∧
    (tripDriverStr t = userId → driver_mark_complete t userId now r = mark_complete t now r) ∧
    (tripDriverStr t ≠ userId → driver_mark_complete t userId now r = t) := by
  refine ⟨rfl, rfl, rfl, rfl, rfl, rfl, ?_, ?_⟩
  · intro h; simp [driver_mark_complete, h]
  · intro h; simp [driver_mark_complete, h]

/-- Witness for the amended C1, at the already-completed `tripLocked`. -/
theorem mark_complete_unconditional_witness :
    (mark_complete tripLocked 100 (3/2)).exchange_rate_at = some (3/2) ∧
    driver_mark_complete tripLocked "d1" 100 (3/2) = mark_complete tripLocked 100 (3/2) :=
  ⟨(mark_complete_unconditional tripLocked "d1" 100 (3/2)).2.2.1,
   (mark_complete_unconditional tripLocked "d1" 100 (3/2)).2.2.2.2.2.2.1 rfl⟩

/-- C3: the `trip_detail` aggregation computes
`profit = convert(payment_usd) − Σ convert(expense_i)` with the one
selected rate `rateFor_trip_detail` appearing in every term, and on
the §8 scenario (rate `1.35`, primary `USD`, payment `1000`, one
expense of `135 CAD`) gives expense `100.0` and profit `900.0`. -/
theorem trip_detail_profit_formula :
    (∀ (t : Trip) (live : ℚ) (p : Option String),
      trip_detail_row t live p
        = (convert_to_primary t.payment_usd (some "USD") (.num (rateFor_trip_detail t live)) p,
           tripExpensesSum t.expenses (.num (rateFor_trip_detail t live)) p,
           convert_to_primary t.payment_usd (some "USD") (.num (rateFor_trip_detail t live)) p
             - tripExpensesSum t.expenses (.num (rateFor_trip_detail t live)) p)) ∧
    trip_detail_row scenarioTrip (27/20) (some "USD") = (1000, 100, 900) := by
  constructor
  · intro t live p; rfl
  · simp [trip_detail_row, rateFor_trip_detail, tripExpensesSum, scenarioTrip,
      convert_to_primary, toRate, toAmt, normCurr_evals.1, normCurr_evals.2.1]
    norm_num

/-- C2: for a completed trip carrying a (nonzero) locked snapshot
`r`, the `all_trips` row and the `trip_detail` valuation are both the
valuation at `r`, independently of the live exchange rate: computing
them under any two live rates gives the same triple, equal to
`valuationAtRate t r`. -/
theorem completed_trip_valuation_uses_locked_rate (t : Trip) (r : ℚ) (p : Option String)
    (e₁ e₂ : ℚ) (hst : t.status = "completed")
    (hlock : t.exchange_rate_at = some r) (hr : r ≠ 0) :
    all_trips_row t e₁ p = valuationAtRate t r p ∧
    all_trips_row t e₂ p = valuationAtRate t r p ∧
    trip_detail_row t e₁ p = valuationAtRate t r p ∧
    trip_detail_row t e₂ p = valuationAtRate t r p := by
  have hall : ∀ e : ℚ, rateFor_all_trips t e = .num r := by
    intro e; simp [rateFor_all_trips, hst, hlock]
  have hdet : ∀ e : ℚ, rateFor_trip_detail t e = r := by
    intro e; simp [rateFor_trip_detail, hlock, hr]
  refine ⟨?_, ?_, ?_, ?_⟩ <;>
    simp [all_trips_row, trip_detail_row, valuationAtRate, hall, hdet]

/-- Witness for C2: `tripLocked` was completed at rate `1.40`; under
live rates `1.50` and `1.40` both routes report the valuation at the
locked `1.40`, namely payment `1000`, expenses `100`, profit `900`. -/
theorem completed_trip_valuation_witness :
    all_trips_row tripLocked (3/2) (some "USD") = valuationAtRate tripLocked (7/5) (some "USD") ∧
    trip_detail_row tripLocked (3/2) (some "USD") = valuationAtRate tripLocked (7/5) (some "USD") ∧
    valuationAtRate tripLocked (7/5) (some "USD") = (1000, 100, 900) := by
  have h := completed_trip_valuation_uses_locked_rate tripLocked (7/5) (some "USD")
    (3/2) (3/2) rfl rfl (by norm_num)
  refine ⟨h.1, h.2.2.1, ?_⟩
  simp [valuationAtRate, tripLocked, tripExpensesSum, convert_to_primary, toRate,
    toAmt, normCurr_evals.1, normCurr_evals.2.1]
  norm_num

/-- C4: the expense-permission check: an owner is always allowed; an
actor whose role is neither owner nor driver is denied; a driver not
assigned to the trip is denied; and — on a trip whose status is one
of the two lifecycle states, with `completed_at` present when
completed — the assigned driver is allowed iff the trip is active or
completed no more than 24 hours (86400 s) before `now`. -/
theorem canAddExpense_spec (t : Trip) (userId : String) (now c : ℤ)
    (hs : t.status = "active" ∨ t.status = "completed")
    (hc : t.status = "completed" → t.completed_at = some c) :
    canAddExpense t "owner" userId now = true ∧
    (∀ role, role ≠ "owner" → role ≠ "driver" → canAddExpense t role userId now = false) ∧
    (tripDriverStr t ≠ userId → canAddExpense t "driver" userId now = false) ∧
    (tripDriverStr t = userId →
      (canAddExpense t "driver" userId now = true ↔
        t.status = "active" ∨ (t.status = "completed" ∧ now - c ≤ 86400))) := by
  refine ⟨by simp [canAddExpense], ?_, ?_, ?_⟩
  · intro role h1 h2; simp [canAddExpense, h1, h2]
  · intro hd; simp [canAddExpense, hd]
  · intro hd
    rcases hs with h | h
    · have hne : t.status ≠ "completed" := by rw [h]; decide
      simp [canAddExpense, hd, hne, h]
    · have h24 := hc h
      simp [canAddExpense, hd, h, h24]

/-- Witness for C4, on `tripLocked` (completed at time `0`, driver
`"d1"`): the driver is denied 25 hours (90000 s) after completion,
allowed at 23 hours (82800 s), and the owner is allowed at 25 hours. -/
theorem canAddExpense_spec_witness :
    canAddExpense tripLocked "owner" "d1" 90000 = true ∧
    canAddExpense tripLocked "driver" "d1" 90000 = false ∧
    canAddExpense tripLocked "driver" "d1" 82800 = true := by
  have h25 := canAddExpense_spec tripLocked "d1" 90000 0 (Or.inr rfl) (fun _ => rfl)
  have h23 := canAddExpense_spec tripLocked "d1" 82800 0 (Or.inr rfl) (fun _ => rfl)
  refine ⟨h25.1, ?_, (h23.2.2.2 rfl).mpr (Or.inr ⟨rfl, by decide⟩)⟩
  cases hb : canAddExpense tripLocked "driver" "d1" 90000
  · rfl
  · exfalso
    rcases (h25.2.2.2 rfl).mp hb with h | h
    · exact absurd h (by decide)
    · exact absurd h.2 (by decide)

/-- C5: `get_live_rate` with a truthy cached value younger than one
hour returns it without invoking the fetch path; with no such cache
entry it invokes the fetch, caching and returning a successful fetch,
returning the (possibly stale) cached value on fetch failure when one
exists, and the constant `1.35` otherwise — it always returns a rate.
(Cached and fetched rates are positive, per the Rate Fetch interface
contract.) -/
theorem get_live_rate_spec (c : RateCache) (now : ℤ) (fetch : Option ℚ)
    (hcache : ∀ r, c.rate = some r → 0 < r)
    (hfetch : ∀ r, fetch = some r → 0 < r) :
    (∀ r ts, c.rate = some r → c.timestamp = some ts → now - ts < 3600 →
      get_live_rate c now fetch = (r, c, false)) ∧
    ((∀ r ts, c.rate = some r → c.timestamp = some ts → 3600 ≤ now - ts) →
      ((get_live_rate c now fetch).2.2 = true ∧
       (∀ f, fetch = some f → get_live_rate c now fetch = (f, ⟨some f, some now⟩, true)) ∧
       (fetch = none → ∀ r, c.rate = some r → get_live_rate c now fetch = (r, c, true)) ∧
       (fetch = none → c.rate = none → get_live_rate c now fetch = (27/20, c, true)))) := by
  obtain ⟨cr, cts⟩ := c
  have hfp : (fetch_path ⟨cr, cts⟩ now fetch).2.2 = true := by
    rcases fetch with _ | f
    · rfl
    · simp only [fetch_path]
      split <;> rfl
  constructor
  · intro r ts hr hts hlt
    simp only at hr hts
    subst hr; subst hts
    have hpos := hcache r rfl
    simp [get_live_rate, hpos.ne', hlt]
  · intro hstale
    have hmain : get_live_rate ⟨cr, cts⟩ now fetch = fetch_path ⟨cr, cts⟩ now fetch := by
      rcases cr with _ | r
      · rfl
      · rcases cts with _ | ts
        · rfl
        · have hpos := hcache r rfl
          have hge := hstale r ts rfl rfl
          simp [get_live_rate, hpos.ne', not_lt.mpr hge]
    refine ⟨by rw [hmain]; exact hfp, ?_, ?_, ?_⟩
    · intro f hf
      have hposf := hfetch f hf
      rw [hmain, hf]
      simp [fetch_path, hposf.ne']
    · intro hf r hr
      simp only at hr
      subst hr
      have hpos := hcache r rfl
      rw [hmain, hf]
      simp [fetch_path, stale_or_default, hpos.ne']
    · intro hf hr
      simp only at hr
      subst hr
      rw [hmain, hf]
      simp [fetch_path, stale_or_default]

/-- Witness for C5: a cache populated 30 minutes ago (1800 s) is
returned without fetching; one populated 90 minutes ago (5400 s)
invokes the fetch and the fresh value is cached and returned; with no
cache and a failed fetch the default `1.35` is returned. -/
theorem get_live_rate_spec_witness :
    get_live_rate ⟨some (7/5), some 0⟩ 1800 (some (3/2)) = (7/5, ⟨some (7/5), some 0⟩, false) ∧
    get_live_rate ⟨some (7/5), some 0⟩ 5400 (some (3/2)) = (3/2, ⟨some (3/2), some 5400⟩, true) ∧
    get_live_rate ⟨none, none⟩ 0 none = (27/20, ⟨none, none⟩, true) := by
  have hc : ∀ r : ℚ, (some (7/5 : ℚ) = some r) → 0 < r := by
    rintro r ⟨rfl⟩; norm_num
  have hf : ∀ r : ℚ, (some (3/2 : ℚ) = some r) → 0 < r := by
    rintro r ⟨rfl⟩; norm_num
  have hnone : ∀ r : ℚ, (none : Option ℚ) = some r → 0 < r := by
    intro r h; cases h
  have h30 := get_live_rate_spec ⟨some (7/5), some 0⟩ 1800 (some (3/2)) hc hf
  have h90 := get_live_rate_spec ⟨some (7/5), some 0⟩ 5400 (some (3/2)) hc hf
  have hempty := get_live_rate_spec ⟨none, none⟩ 0 none hnone hnone
  refine ⟨h30.1 (7/5) 0 rfl rfl (by norm_num), ?_, ?_⟩
  · exact (h90.2 (by rintro r ts ⟨rfl⟩ ⟨rfl⟩; norm_num)).2.1 (3/2) rfl
  · exact (hempty.2 (by rintro r ts ⟨rfl⟩)).2.2.2 rfl rfl

/-- C9: unit expenses are always valued at the current settings rate:
the per-unit totals of the `units` listing and of `unit_detail` are
sums of conversions at the current rate, and in the owner dashboard
total the unit contribution is that same live-rate sum, unchanged
under any replacement of the trip list (hence of any trip's
completion status or locked rate). -/
theorem unit_expenses_always_live_rate (u : FleetUnit) (trips trips' : List Trip)
    (units_list : List FleetUnit) (cur : ℚ) (p : Option String) :
    unit_expenses_primary u cur p
      = (u.expenses.map (fun ex =>
          convert_to_primary ex.amount ex.currency (.num cur) p)).sum ∧
    owner_dashboard_total_expenses trips units_list cur p
      = (trips.map (fun t =>
          expensesSumCurrD t.expenses (.num (rateFor_owner_dashboard t cur)) p)).sum
        + (units_list.map (fun u' => expensesSumCurrD u'.expenses (.num cur) p)).sum ∧
    owner_dashboard_total_expenses trips units_list cur p
      - (trips.map (fun t =>
          expensesSumCurrD t.expenses (.num (rateFor_owner_dashboard t cur)) p)).sum
      = owner_dashboard_total_expenses trips' units_list cur p
        - (trips'.map (fun t =>
            expensesSumCurrD t.expenses (.num (rateFor_owner_dashboard t cur)) p)).sum := by
  refine ⟨rfl, rfl, ?_⟩
  simp [owner_dashboard_total_expenses]

end TruckerApp
